import Mathlib

/-!
Shallow embedding of `selfdrive/controls/lib/longitudinal_mpc/generator.cpp`,
the ACADO code-generation script for openpilot's longitudinal-following MPC.
The script fixes the continuous dynamics, the least-squares stage and terminal
residuals, the non-uniform shooting grid, the path constraint `0 <= v_ego`,
and the solver-export settings. Real-valued quantities are modelled over `ℝ`;
grid step counts over `ℕ`.
-/

namespace LongitudinalMpc

/-- Gravitational constant, `#define G 9.81` (generator.cpp line 8). -/
def G : ℝ := 9.81

/-- Reaction-plus-braking safety margin, macro `RW` (generator.cpp line 10):
`v_ego * time_gap - (v_l - v_ego) * time_gap + v_ego*v_ego/(2*G) - v_l*v_l/(2*G)`. -/
noncomputable def RW (v_ego v_l time_gap : ℝ) : ℝ :=
  v_ego * time_gap - (v_l - v_ego) * time_gap + v_ego * v_ego / (2 * G) - v_l * v_l / (2 * G)

/-- Normalized distance error, macro `NORM_RW_ERROR` (generator.cpp line 11):
`(RW(v_ego, v_l, time_gap) + 4.0 - p) / (sqrt(v_ego + 0.5) + 0.1)`. -/
noncomputable def NORM_RW_ERROR (v_ego v_l p time_gap : ℝ) : ℝ :=
  (RW v_ego v_l time_gap + 4.0 - p) / (Real.sqrt (v_ego + 0.5) + 0.1)

/-- Sigmoid minimum-gap term `follow_const_m` (generator.cpp line 48):
`2.75 / (1 + exp(2.2 - 0.9 * v_ego)) + 1.25`. -/
noncomputable def follow_const_m (v_ego : ℝ) : ℝ :=
  2.75 / (1 + Real.exp (2.2 - 0.9 * v_ego)) + 1.25

/-- Desired gap `desired = follow_const_m + RW(v_ego, v_l, time_gap)` (generator.cpp line 49). -/
noncomputable def desired (v_ego v_l time_gap : ℝ) : ℝ :=
  follow_const_m v_ego + RW v_ego v_l time_gap

/-- Gap to the lead vehicle, `d_l = x_l - x_ego` (generator.cpp line 50). -/
def d_l (x_l x_ego : ℝ) : ℝ := x_l - x_ego

/-- Differential state of the ego vehicle: `DifferentialState x_ego, v_ego, a_ego`
(generator.cpp line 20). -/
structure State where
  x_ego : ℝ
  v_ego : ℝ
  a_ego : ℝ

/-- Online data: `OnlineData x_l, v_l` and `OnlineData time_gap`
(generator.cpp lines 21 and 28). -/
structure OnlineData where
  x_l : ℝ
  v_l : ℝ
  time_gap : ℝ

/-- Equations of motion `f` (generator.cpp lines 53 to 55):
`dot(x_ego) == v_ego`, `dot(v_ego) == a_ego`, `dot(a_ego) == j_ego`.
Returns the time derivative of the state given the state and the jerk control. -/
def f (s : State) (j_ego : ℝ) : State :=
  { x_ego := s.v_ego, v_ego := s.a_ego, a_ego := j_ego }

/-- Running least-squares residual vector `h` (generator.cpp lines 58 to 62),
as the ordered list of its components. -/
noncomputable def h (s : State) (od : OnlineData) (j_ego : ℝ) : List ℝ :=
  [Real.exp (0.3 * NORM_RW_ERROR s.v_ego od.v_l (d_l od.x_l s.x_ego) od.time_gap),
   (d_l od.x_l s.x_ego - desired s.v_ego od.v_l od.time_gap) / (0.05 * s.v_ego + 0.5),
   s.a_ego * (0.1 * s.v_ego + 1.0),
   j_ego * (0.1 * s.v_ego + 1.0)]

/-- Terminal least-squares residual vector `hN` (generator.cpp lines 68 to 71). -/
noncomputable def hN (s : State) (od : OnlineData) : List ℝ :=
  [Real.exp (0.3 * NORM_RW_ERROR s.v_ego od.v_l (d_l od.x_l s.x_ego) od.time_gap),
   (d_l od.x_l s.x_ego - desired s.v_ego od.v_l od.time_gap) / (0.05 * s.v_ego + 0.5),
   s.a_ego * (0.1 * s.v_ego + 1.0)]

/-- Number of shooting intervals: `DMatrix numSteps(20, 1)` (generator.cpp line 78). -/
def numIntervals : ℕ := 20

/-- The `numSteps` grid vector (generator.cpp lines 78 to 85): entry `i` is the
number of integrator steps assigned to shooting interval `i` in ACADO's
non-uniform grid (`OCP ocp(tStart, tEnd, numSteps)`); 1 for the first five
intervals and 3 for the remaining fifteen. -/
def numSteps (i : Fin 20) : ℕ := if (i : ℕ) < 5 then 1 else 3

/-- Horizon start, `const double tStart = 0.0` (generator.cpp line 88). -/
def tStart : ℝ := 0.0

/-- Horizon end, `const double tEnd = 10.0` (generator.cpp line 89). -/
def tEnd : ℝ := 10.0

/-- Total number of integrator steps along the horizon: the sum of the
`numSteps` grid entries, which ACADO requires to match `NUM_INTEGRATOR_STEPS`. -/
def totalSteps : ℕ := ∑ i : Fin 20, numSteps i

/-- Duration of one integrator sub-step: the horizon length divided by the
total number of integrator steps (uniform across the grid). -/
noncomputable def subStepDuration : ℝ := (tEnd - tStart) / (totalSteps : ℝ)

/-- Duration of shooting interval `i`: its share of the horizon, proportional
to its `numSteps` entry. -/
noncomputable def stepDuration (i : Fin 20) : ℝ :=
  (tEnd - tStart) * (numSteps i : ℝ) / (totalSteps : ℝ)

/-- The `const int controlHorizon = 50` constant (generator.cpp line 4). -/
def controlHorizon : ℕ := 50

/-- Pointwise sum of two states (vector addition in the 3-dimensional state space). -/
def State.add (s t : State) : State :=
  { x_ego := s.x_ego + t.x_ego, v_ego := s.v_ego + t.v_ego, a_ego := s.a_ego + t.a_ego }

/-- Scaling of a state by a real (scalar multiplication in state space). -/
def State.smul (c : ℝ) (s : State) : State :=
  { x_ego := c * s.x_ego, v_ego := c * s.v_ego, a_ego := c * s.a_ego }

/-- One step of the classical fixed-step 4th-order Runge-Kutta scheme applied
to the dynamics `f` (solver setting `INTEGRATOR_TYPE = INT_RK4`,
generator.cpp line 107). -/
noncomputable def rk4Step (dt : ℝ) (j_ego : ℝ) (s : State) : State :=
  let k1 := f s j_ego
  let k2 := f (s.add (State.smul (dt / 2) k1)) j_ego
  let k3 := f (s.add (State.smul (dt / 2) k2)) j_ego
  let k4 := f (s.add (State.smul dt k3)) j_ego
  s.add (State.smul (dt / 6) (k1.add ((State.smul 2 k2).add ((State.smul 2 k3).add k4))))

/-- Iterated RK4: `n` consecutive sub-steps of length `dt` under constant
control `j_ego` within one shooting interval. -/
noncomputable def rk4Propagate (dt : ℝ) (j_ego : ℝ) (s : State) : ℕ → State
  | 0 => s
  | n + 1 => rk4Step dt j_ego (rk4Propagate dt j_ego s n)

/-- Modelled from the spec: a Solution ("the Trajectory together with the
realized cost value and a solver status") holds a trajectory of 21 states (20
shooting intervals plus the terminal node) and 20 jerk controls; the generated
solver that produces it is not under src/, only the generator script is. -/
structure Solution where
  states : Fin 21 → State
  controls : Fin 20 → ℝ

/-- Path constraint imposed on the OCP at generator.cpp line 96:
`ocp.subjectTo( 0.0 <= v_ego )`, applied at every node of the horizon. -/
def pathConstraint (s : State) : Prop := 0.0 ≤ s.v_ego

/-- Dynamics constraint from `ocp.subjectTo(f)` (generator.cpp line 91): under
multiple shooting, state `i + 1` is the RK4 propagation of state `i` across
interval `i`, using that interval's `numSteps` sub-steps of uniform length. -/
def dynamicsConstraint (sol : Solution) : Prop :=
  ∀ i : Fin 20, sol.states i.succ =
    rk4Propagate subStepDuration (sol.controls i) (sol.states i.castSucc) (numSteps i)

/-- Modelled from the spec: an accepted Solution is one satisfying every OCP
constraint — the QP step enforces them by construction ("the constraint is
enforced by the QP step, not by post-hoc clipping"); the generated QP solver
is not under src/. -/
def acceptedSolution (sol : Solution) : Prop :=
  dynamicsConstraint sol ∧ ∀ i : Fin 21, pathConstraint (sol.states i)

/-- Hessian approximation option of the export settings. -/
inductive HessianApproximation where
  | GAUSS_NEWTON
  | EXACT_HESSIAN

/-- Discretization option of the export settings. -/
inductive DiscretizationType where
  | MULTIPLE_SHOOTING
  | SINGLE_SHOOTING

/-- Integrator option of the export settings. -/
inductive IntegratorType where
  | INT_EX_EULER
  | INT_RK4
  | INT_IRK4

/-- Sparse-QP-solution option of the export settings. -/
inductive SparseQpSolutionType where
  | CONDENSING
  | FULL_CONDENSING
  | SPARSE_SOLVER

/-- QP-solver option of the export settings. -/
inductive QpSolverType where
  | QP_QPOASES
  | QP_FORCES

/-- Solver-export settings applied to `OCPexport mpc` by the `mpc.set` calls. -/
structure ExportSettings where
  hessianApproximation : HessianApproximation
  discretizationType : DiscretizationType
  integratorType : IntegratorType
  numIntegratorSteps : ℕ
  maxNumQpIterations : ℕ
  cgUseVariableWeightingMatrix : Bool
  sparseQpSolution : SparseQpSolutionType
  qpSolver : QpSolverType
  hotstartQp : Bool

/-- The settings fixed at generation time in generator.cpp lines 105 to 113:
Gauss-Newton Hessian, multiple shooting, RK4 integrator with
`NUM_INTEGRATOR_STEPS = controlHorizon`, `MAX_NUM_QP_ITERATIONS = 500`,
variable weighting matrices, condensing, qpOASES with hot start. -/
def mpcSettings : ExportSettings where
  hessianApproximation := HessianApproximation.GAUSS_NEWTON
  discretizationType := DiscretizationType.MULTIPLE_SHOOTING
  integratorType := IntegratorType.INT_RK4
  numIntegratorSteps := controlHorizon
  maxNumQpIterations := 500
  cgUseVariableWeightingMatrix := true
  sparseQpSolution := SparseQpSolutionType.CONDENSING
  qpSolver := QpSolverType.QP_QPOASES
  hotstartQp := true

/-- Modelled from the spec: the QP kernel's iteration loop — "A fixed
iteration/time budget bounds worst-case per-tick cost (bounded QP iterations
inside the kernel); exceeding it degrades to the best iterate found". The
kernel (qpOASES and the generated interface) is not under src/; only the
budget constant `MAX_NUM_QP_ITERATIONS` is. Given a convergence test on the
iterate index, the kernel iterates until the test first succeeds and in every
case performs at most `maxIter` iterations. -/
def qpKernelIterations (converged : ℕ → Bool) (maxIter : ℕ) : ℕ :=
  match (List.range maxIter).find? (fun n => converged n) with
  | some n => n + 1
  | none => maxIter

/-- Spec-side transcription of `norm_rw_error` as the spec words it:
`(RW(v, v_l, time_gap) + 4.0 - d) / (sqrt(v + 0.5) + 0.1)`. -/
noncomputable def normRwErrorSpec (v v_l d time_gap : ℝ) : ℝ :=
  (RW v v_l time_gap + 4.0 - d) / (Real.sqrt (v + 0.5) + 0.1)

/-- Spec-side transcription of the desired gap as the spec words it:
`desired(v, v_l, time_gap) = follow_const_m(v) + RW(v, v_l, time_gap)`. -/
noncomputable def desiredSpec (v v_l time_gap : ℝ) : ℝ :=
  follow_const_m v + RW v v_l time_gap

/-- Spec-side transcription of the four-component stage residual vector, in
terms of ego velocity `v`, lead velocity `v_l`, gap `d`, preference
`time_gap`, acceleration `a` and jerk `j`. -/
noncomputable def stageResidualSpec (v v_l d time_gap a j : ℝ) : List ℝ :=
  [Real.exp (0.3 * normRwErrorSpec v v_l d time_gap),
   (d - desiredSpec v v_l time_gap) / (0.05 * v + 0.5),
   a * (0.1 * v + 1.0),
   j * (0.1 * v + 1.0)]

/-- The all-rest trajectory: every state at the origin with zero velocity and
acceleration, every control zero. -/
def restSolution : Solution where
  states := fun _ => { x_ego := 0, v_ego := 0, a_ego := 0 }
  controls := fun _ => 0

/-- C1 counterexample: at `v = 1`, `time_gap = 1` the safety margin at matched
speeds equals `1`, not `0`, so the claim `RW(v, v, time_gap) = 0` fails. -/
theorem RW_matched_speed_counterexample : RW 1 1 1 ≠ 0 := by
  unfold RW G
  norm_num

/-- C1 amended: at matched ego and lead speeds the relative-velocity term and
the braking-distance differential vanish but the reaction term remains:
`RW(v, v, time_gap) = v * time_gap`, which is zero only when `v = 0` or
`time_gap = 0`. -/
theorem RW_matched_speed (v time_gap : ℝ) : RW v v time_gap = v * time_gap := by
  unfold RW
  ring

/-- C4: the running residual vector `h` has exactly four components, equal to
the formulas of the spec with gap `d = x_l - x_ego`. -/
theorem stage_residual_matches_spec (s : State) (od : OnlineData) (j_ego : ℝ) :
    h s od j_ego =
      stageResidualSpec s.v_ego od.v_l (od.x_l - s.x_ego) od.time_gap s.a_ego j_ego ∧
    (h s od j_ego).length = 4 := by
  constructor
  · simp [h, stageResidualSpec, normRwErrorSpec, desiredSpec, NORM_RW_ERROR, d_l, desired]
  · simp [h]

/-- C7: the terminal residual vector `hN` has exactly three components, equal
to the first three stage-residual components at the same state and online
data, for every jerk control (so it has no jerk term). -/
theorem terminal_residual_matches_stage (s : State) (od : OnlineData) (j_ego : ℝ) :
    hN s od = (h s od j_ego).take 3 ∧ (hN s od).length = 3 := by
  constructor
  · simp [h, hN]
  · simp [hN]

/-- C8: the dynamics is exactly the triple integrator: for every state and
every jerk control, `f` maps `(x_ego, v_ego, a_ego)` and `j_ego` to the
derivative `(v_ego, a_ego, j_ego)`, with no other terms. -/
theorem dynamics_triple_integrator (s : State) (j_ego : ℝ) :
    (f s j_ego).x_ego = s.v_ego ∧ (f s j_ego).v_ego = s.a_ego ∧
    (f s j_ego).a_ego = j_ego :=
  ⟨rfl, rfl, rfl⟩

/-- C10: on states satisfying the OCP path constraint `0 ≤ v_ego`, every
denominator of the stage and terminal residuals is strictly positive and the
square-root argument is strictly positive, so the residual components are
well-defined. -/
theorem residual_denominators_positive (s : State) (hs : pathConstraint s) :
    0 < Real.sqrt (s.v_ego + 0.5) + 0.1 ∧ 0 < 0.05 * s.v_ego + 0.5 ∧
    0 < s.v_ego + 0.5 := by
  unfold pathConstraint at hs
  norm_num at hs
  refine ⟨?_, by linarith, by linarith⟩
  have hsq := Real.sqrt_nonneg (s.v_ego + 0.5)
  linarith

/-- C10 witness: the rest state satisfies the path constraint and the
denominators are positive there. -/
theorem residual_denominators_positive_witness :
    pathConstraint { x_ego := 0, v_ego := 0, a_ego := 0 } ∧
    (0 < Real.sqrt ((0 : ℝ) + 0.5) + 0.1 ∧ 0 < 0.05 * (0 : ℝ) + 0.5 ∧
     0 < (0 : ℝ) + 0.5) :=
  have hp : pathConstraint { x_ego := 0, v_ego := 0, a_ego := 0 } := by
    unfold pathConstraint
    norm_num
  ⟨hp, residual_denominators_positive { x_ego := 0, v_ego := 0, a_ego := 0 } hp⟩

/-- The `numSteps` grid entries sum to 50, the configured total number of
integrator steps. -/
theorem totalSteps_eq : totalSteps = 50 := by decide

/-- C5 counterexample: shooting interval 0 is integrated with `numSteps 0 = 1`
RK4 sub-step, not 50: the configured `NUM_INTEGRATOR_STEPS = controlHorizon =
50` is not the per-interval sub-step count. -/
theorem substeps_per_interval_counterexample :
    numSteps 0 = 1 ∧ numSteps 0 ≠ mpcSettings.numIntegratorSteps := by
  constructor <;> decide

/-- C5 amended: every interval's transition uses the fixed-step RK4
integrator; the configured 50 steps (`NUM_INTEGRATOR_STEPS = controlHorizon`)
are the total across the whole horizon and equal the sum of the `numSteps`
grid entries, which assign 1 sub-step to each of the first 5 intervals and 3
to each of the remaining 15; each interval's duration is its sub-step count
times the uniform 0.2 s sub-step length. -/
theorem rk4_substeps_distribution :
    mpcSettings.integratorType = IntegratorType.INT_RK4 ∧
    mpcSettings.numIntegratorSteps = 50 ∧
    totalSteps = mpcSettings.numIntegratorSteps ∧
    (∀ i : Fin 20, numSteps i = if (i : ℕ) < 5 then 1 else 3) ∧
    (∀ i : Fin 20, stepDuration i = (numSteps i : ℝ) * subStepDuration) ∧
    subStepDuration = 0.2 := by
  refine ⟨rfl, rfl, by decide, fun i => rfl, fun i => ?_, ?_⟩
  · unfold stepDuration subStepDuration
    ring
  · unfold subStepDuration tStart tEnd
    rw [totalSteps_eq]
    norm_num

/-- C6: the horizon consists of exactly 20 shooting intervals; each of the
first 5 lasts 0.2 s and each of the remaining 15 lasts 0.6 s; the durations
sum to the full 10 s horizon, with `tStart = 0` and `tEnd = 10`; all of these
are generation-time constants. -/
theorem horizon_grid :
    numIntervals = 20 ∧
    (∀ i : Fin 20, stepDuration i = if (i : ℕ) < 5 then 0.2 else 0.6) ∧
    (∑ i : Fin 20, stepDuration i) = 10 ∧
    tStart = 0 ∧ tEnd = 10 := by
  have hdur : ∀ i : Fin 20, stepDuration i = if (i : ℕ) < 5 then 0.2 else 0.6 := by
    intro i
    unfold stepDuration numSteps tStart tEnd
    rw [totalSteps_eq]
    by_cases hi : (i : ℕ) < 5 <;> simp [hi] <;> norm_num
  refine ⟨rfl, hdur, ?_, by unfold tStart; norm_num, by unfold tEnd; norm_num⟩
  calc (∑ i : Fin 20, stepDuration i)
      = ∑ i : Fin 20, if (i : ℕ) < 5 then (0.2 : ℝ) else 0.6 :=
        Finset.sum_congr rfl fun i _ => hdur i
    _ = 10 := by norm_num [Fin.sum_univ_succ]

/-- C9: for every convergence behavior of the QP kernel, the number of QP
iterations in one solve is at most the generation-time budget
`MAX_NUM_QP_ITERATIONS`, which this configuration fixes at 500. -/
theorem qp_iterations_bounded (converged : ℕ → Bool) :
    qpKernelIterations converged mpcSettings.maxNumQpIterations ≤ 500 ∧
    mpcSettings.maxNumQpIterations = 500 := by
  refine ⟨?_, rfl⟩
  unfold qpKernelIterations
  have h500 : mpcSettings.maxNumQpIterations = 500 := rfl
  rw [h500]
  cases hfind : (List.range 500).find? (fun n => converged n) with
  | none => simp
  | some n =>
    have hmem := List.mem_of_find?_eq_some hfind
    have hn := List.mem_range.mp hmem
    show n + 1 ≤ 500
    omega

/-- An RK4 step from the rest state under zero jerk stays at rest. -/
theorem rk4Step_rest (dt : ℝ) :
    rk4Step dt 0 { x_ego := 0, v_ego := 0, a_ego := 0 } =
      { x_ego := 0, v_ego := 0, a_ego := 0 } := by
  simp [rk4Step, f, State.add, State.smul]

/-- Iterated RK4 from the rest state under zero jerk stays at rest. -/
theorem rk4Propagate_rest (dt : ℝ) (n : ℕ) :
    rk4Propagate dt 0 { x_ego := 0, v_ego := 0, a_ego := 0 } n =
      { x_ego := 0, v_ego := 0, a_ego := 0 } := by
  induction n with
  | zero => rfl
  | succ m ih =>
    unfold rk4Propagate
    rw [ih, rk4Step_rest]

/-- C2: the OCP imposes `0 ≤ v_ego` as a path constraint at every node of the
horizon (`ocp.subjectTo( 0.0 <= v_ego )`), so every accepted Solution — one
inside the constraint set the QP enforces — has nonnegative ego velocity at
every stage by construction, with no post-hoc clipping involved. -/
theorem accepted_solution_velocity_nonneg (sol : Solution)
    (hsol : acceptedSolution sol) : ∀ i : Fin 21, 0 ≤ (sol.states i).v_ego := by
  intro i
  have hp := hsol.2 i
  unfold pathConstraint at hp
  norm_num at hp
  exact hp

/-- C2 witness: the all-rest trajectory satisfies both OCP constraints, and
the theorem yields a nonnegative velocity at stage 0. -/
theorem accepted_solution_velocity_nonneg_witness :
    acceptedSolution restSolution ∧ 0 ≤ ((restSolution.states 0).v_ego) :=
  have hacc : acceptedSolution restSolution := by
    constructor
    · intro i
      show restSolution.states i.succ =
        rk4Propagate subStepDuration 0 { x_ego := 0, v_ego := 0, a_ego := 0 } (numSteps i)
      rw [rk4Propagate_rest]
      rfl
    · intro i
      unfold pathConstraint restSolution
      norm_num
  ⟨hacc, accepted_solution_velocity_nonneg restSolution hacc 0⟩

/-- The sigmoid gap term is a continuous function of the ego velocity. -/
theorem follow_const_m_continuous : Continuous follow_const_m := by
  unfold follow_const_m
  have hden : Continuous fun v : ℝ => 1 + Real.exp (2.2 - 0.9 * v) := by continuity
  exact (continuous_const.div hden fun v => by positivity).add continuous_const

/-- The sigmoid gap term is strictly increasing on all of `ℝ`. -/
theorem follow_const_m_strictMono : StrictMono follow_const_m := by
  intro a b hab
  unfold follow_const_m
  have hexp : Real.exp (2.2 - 0.9 * b) < Real.exp (2.2 - 0.9 * a) :=
    Real.exp_lt_exp.mpr (by linarith)
  have hb : (0 : ℝ) < 1 + Real.exp (2.2 - 0.9 * b) := by positivity
  have hdiv : 2.75 / (1 + Real.exp (2.2 - 0.9 * a)) <
      2.75 / (1 + Real.exp (2.2 - 0.9 * b)) :=
    div_lt_div_of_pos_left (by norm_num) hb (by linarith)
  linarith

/-- The sigmoid gap term lies strictly between 1.25 and 4 everywhere. -/
theorem follow_const_m_bounds (v : ℝ) :
    1.25 < follow_const_m v ∧ follow_const_m v < 4.0 := by
  unfold follow_const_m
  have he : 0 < Real.exp (2.2 - 0.9 * v) := Real.exp_pos _
  constructor
  · have hpos : 0 < 2.75 / (1 + Real.exp (2.2 - 0.9 * v)) := by positivity
    linarith
  · have hlt : 2.75 / (1 + Real.exp (2.2 - 0.9 * v)) < 2.75 / 1 :=
      div_lt_div_of_pos_left (by norm_num) one_pos (by linarith)
    norm_num at hlt
    linarith

/-- The sigmoid gap term tends to 4 as the ego velocity tends to infinity. -/
theorem follow_const_m_tendsto_atTop :
    Filter.Tendsto follow_const_m Filter.atTop (nhds 4.0) := by
  have h09 : Filter.Tendsto (fun v : ℝ => 0.9 * v) Filter.atTop Filter.atTop :=
    Filter.Tendsto.const_mul_atTop (by norm_num) Filter.tendsto_id
  have hneg : Filter.Tendsto (fun v : ℝ => -(0.9 * v)) Filter.atTop Filter.atBot :=
    Filter.tendsto_neg_atTop_atBot.comp h09
  have harg : Filter.Tendsto (fun v : ℝ => 2.2 - 0.9 * v) Filter.atTop Filter.atBot := by
    have := Filter.tendsto_atBot_add_const_left Filter.atTop (2.2 : ℝ) hneg
    simpa [sub_eq_add_neg] using this
  have hexp : Filter.Tendsto (fun v : ℝ => Real.exp (2.2 - 0.9 * v))
      Filter.atTop (nhds 0) := Real.tendsto_exp_atBot.comp harg
  have hden : Filter.Tendsto (fun v : ℝ => 1 + Real.exp (2.2 - 0.9 * v))
      Filter.atTop (nhds 1) := by
    have := hexp.const_add (1 : ℝ)
    simpa using this
  have hgc : ContinuousAt (fun x : ℝ => 2.75 / x + 1.25) 1 :=
    ContinuousAt.add (continuousAt_const.div continuousAt_id (by norm_num))
      continuousAt_const
  have hcomp := hgc.tendsto.comp hden
  have h4 : (2.75 / 1 + 1.25 : ℝ) = 4.0 := by norm_num
  rw [h4] at hcomp
  exact hcomp.congr fun v => by simp [Function.comp, follow_const_m]

/-- The sigmoid gap term tends to 1.25 as the ego velocity tends to minus
infinity. -/
theorem follow_const_m_tendsto_atBot :
    Filter.Tendsto follow_const_m Filter.atBot (nhds 1.25) := by
  have h09 : Filter.Tendsto (fun v : ℝ => 0.9 * v) Filter.atBot Filter.atBot :=
    Filter.Tendsto.const_mul_atBot (by norm_num) Filter.tendsto_id
  have hneg : Filter.Tendsto (fun v : ℝ => -(0.9 * v)) Filter.atBot Filter.atTop :=
    Filter.tendsto_neg_atBot_atTop.comp h09
  have harg : Filter.Tendsto (fun v : ℝ => 2.2 - 0.9 * v) Filter.atBot Filter.atTop := by
    have := Filter.tendsto_atTop_add_const_left Filter.atBot (2.2 : ℝ) hneg
    simpa [sub_eq_add_neg] using this
  have hexp : Filter.Tendsto (fun v : ℝ => Real.exp (2.2 - 0.9 * v))
      Filter.atBot Filter.atTop := Real.tendsto_exp_atTop.comp harg
  have hden : Filter.Tendsto (fun v : ℝ => 1 + Real.exp (2.2 - 0.9 * v))
      Filter.atBot Filter.atTop :=
    Filter.tendsto_atTop_add_const_left Filter.atBot (1 : ℝ) hexp
  have hdiv : Filter.Tendsto (fun v : ℝ => 2.75 / (1 + Real.exp (2.2 - 0.9 * v)))
      Filter.atBot (nhds 0) :=
    Filter.Tendsto.div_atTop tendsto_const_nhds hden
  have := hdiv.add (tendsto_const_nhds :
    Filter.Tendsto (fun _ : ℝ => (1.25 : ℝ)) Filter.atBot (nhds 1.25))
  unfold follow_const_m
  simpa using this

/-- C3 counterexample: as `v` tends to `0` within `v > 0`, `follow_const_m`
does not approach 1.25: by continuity its limit there is `follow_const_m 0 =
2.75 / (1 + exp 2.2) + 1.25`, which exceeds 1.25. -/
theorem follow_const_m_limit_at_zero_counterexample :
    ¬ Filter.Tendsto follow_const_m (nhdsWithin 0 (Set.Ioi 0)) (nhds 1.25) := by
  intro hlim
  have h0 : Filter.Tendsto follow_const_m (nhdsWithin 0 (Set.Ioi 0))
      (nhds (follow_const_m 0)) :=
    (follow_const_m_continuous.tendsto 0).mono_left nhdsWithin_le_nhds
  have heq : follow_const_m 0 = 1.25 := tendsto_nhds_unique h0 hlim
  have hpos : (0 : ℝ) < 2.75 / (1 + Real.exp (2.2 - 0.9 * 0)) := by positivity
  unfold follow_const_m at heq
  norm_num at heq
  norm_num at hpos
  linarith

/-- C3 amended: `follow_const_m` is strictly increasing; for every `v ≥ 0` its
value lies strictly between 1.25 and 4.0; it approaches 4.0 as `v → ∞`; as
`v → 0` (within `v > 0`) it approaches its value `follow_const_m 0 =
2.75 / (1 + exp 2.2) + 1.25 ≈ 1.52`, while 1.25 is only its limit as
`v → -∞`. -/
theorem follow_const_m_props :
    StrictMono follow_const_m ∧
    (∀ v : ℝ, 0 ≤ v → 1.25 < follow_const_m v ∧ follow_const_m v < 4.0) ∧
    Filter.Tendsto follow_const_m Filter.atTop (nhds 4.0) ∧
    Filter.Tendsto follow_const_m (nhdsWithin 0 (Set.Ioi 0))
      (nhds (follow_const_m 0)) ∧
    Filter.Tendsto follow_const_m Filter.atBot (nhds 1.25) :=
  ⟨follow_const_m_strictMono,
   fun v _ => follow_const_m_bounds v,
   follow_const_m_tendsto_atTop,
   (follow_const_m_continuous.tendsto 0).mono_left nhdsWithin_le_nhds,
   follow_const_m_tendsto_atBot⟩

/-- C3 witness: the bounds of the amended claim evaluated at `v = 1`. -/
theorem follow_const_m_props_witness :
    1.25 < follow_const_m 1 ∧ follow_const_m 1 < 4.0 :=
  follow_const_m_props.2.1 1 (by norm_num)

end LongitudinalMpc
